import Mathlib

/-!
Verification of `scripts/download_pexels_images.py` (MovingBox repository).

The Python script is shallowly embedded below.  PIL images are modelled as a
structure carrying integer dimensions, a color-mode string and a pixel map
`Int → Int → Int` (pixel content is abstract: one integer per coordinate).
Python integers are `Int`, Python `//` is `Int.fdiv` (floor division).
External effects (HTTP search, HTTP download, interactive stdin, the
filesystem) are modelled by outcome values supplied by the environment, and
Python exceptions that escape a function are modelled with `Except`.
-/

namespace MovingBox

/-- A PIL image: dimensions, color mode (e.g. "RGB", "RGBA", "P", "LA"),
and an abstract pixel map sending coordinates to an abstract pixel value. -/
structure PILImage where
  width : Int
  height : Int
  mode : String
  px : Int → Int → Int

/-- PIL `Image.crop((left, top, right, bottom))`: the result has size
`(right - left, bottom - top)` and pixel `(x, y)` taken from source pixel
`(x + left, y + top)`. -/
def PILImage.crop (image : PILImage) (box : Int × Int × Int × Int) : PILImage :=
  { width := box.2.2.1 - box.1
    height := box.2.2.2 - box.2.1
    mode := image.mode
    px := fun x y => image.px (x + box.1) (y + box.2.1) }

/-- PIL `Image.resize((w, h), resampling)`: the result has exactly the
requested size and the same mode.  The LANCZOS resampling kernel is
abstracted to an index remapping; no theorem below depends on the pixel
values of a resized image. -/
def PILImage.resize (image : PILImage) (w h : Int) : PILImage :=
  { width := w
    height := h
    mode := image.mode
    px := fun x y =>
      image.px ((x * image.width).fdiv (max w 1)) ((y * image.height).fdiv (max h 1)) }

/-- PIL `Image.convert(mode)`: same dimensions, new mode; the color-space
transformation of pixel values is abstracted (kept pointwise). -/
def PILImage.convert (image : PILImage) (mode : String) : PILImage :=
  { image with mode := mode }

/-- Constant `TARGET_SIZE = 1920` (script constant, line 99). -/
def TARGET_SIZE : Int := 1920

/-- Function `crop_to_square` (lines 131-141): center-crop to `min(width, height)`
using Python floor division for the offsets. -/
def crop_to_square (image : PILImage) : PILImage :=
  let width := image.width
  let height := image.height
  let size := min width height
  let left := (width - size).fdiv 2
  let top := (height - size).fdiv 2
  let right := left + size
  let bottom := top + size
  image.crop (left, top, right, bottom)

/-- Function `process_image` (lines 144-152): crop to square, then resize to
`(target_size, target_size)`.  The Python default for `target_size` is
`TARGET_SIZE`. -/
def process_image (image : PILImage) (target_size : Int := TARGET_SIZE) : PILImage :=
  let squared := crop_to_square image
  let resized := squared.resize target_size target_size
  resized

/-- Python exceptions that escape a modelled function. -/
inductive PyError where
  | transport (msg : String)
  | eof
  | oserror (msg : String)
  deriving Repr, DecidableEq

/-- Raw modes accepted by the PIL JPEG encoder (`JpegImagePlugin.RAWMODE`);
saving an image in any other mode raises `OSError`. -/
def JPEG_SAVE_MODES : List String := ["1", "L", "RGB", "RGBX", "CMYK", "YCbCr"]

/-- Function `save_image` (lines 155-161): convert to RGB when the mode is exactly
`RGBA` or `P`, then encode as JPEG.  Returns the image actually encoded, or
the `OSError` PIL raises when the (possibly converted) mode is not
JPEG-encodable. -/
def save_image (image : PILImage) : Except PyError PILImage :=
  let image := if image.mode = "RGBA" ∨ image.mode = "P"
               then image.convert "RGB" else image
  if JPEG_SAVE_MODES.contains image.mode then
    Except.ok image
  else
    Except.error (PyError.oserror ("cannot write mode " ++ image.mode ++ " as JPEG"))

/-- PIL modes that carry an alpha channel. -/
def PIL_ALPHA_MODES : List String := ["RGBA", "LA", "PA", "RGBa", "La"]

/-- PIL modes that carry a palette. -/
def PIL_PALETTE_MODES : List String := ["P", "PA"]

/-- Whether a PIL mode carries an alpha channel or a palette. -/
def hasAlphaOrPalette (mode : String) : Bool :=
  PIL_ALPHA_MODES.contains mode || PIL_PALETTE_MODES.contains mode

/-- ASCII whitespace stripped by Python `str.strip()` (space, tab, newline,
carriage return, vertical tab, form feed; Unicode whitespace is out of scope
of the claims). -/
def isPySpace (c : Char) : Bool :=
  c = ' ' || c = '\t' || c = '\n' || c = '\x0d' || c = Char.ofNat 11 || c = Char.ofNat 12

/-- Python `str.strip()`: drop leading and trailing whitespace. -/
def pyStrip (s : String) : String :=
  String.mk (((s.toList.dropWhile isPySpace).reverse.dropWhile isPySpace).reverse)

/-- Python `str.lower()` (ASCII range, which covers the claims). -/
def pyLower (s : String) : String :=
  String.mk (s.toList.map Char.toLower)

/-- Digit-sequence part of Python `int()`: digits with optional single
underscores strictly between digits, accumulating the value. -/
def pyDigitsAux : List Char → Nat → Option Nat
  | [], acc => some acc
  | ['_'], _ => none
  | '_' :: c :: rest, acc =>
      if c.isDigit then pyDigitsAux rest (acc * 10 + (c.toNat - 48)) else none
  | c :: rest, acc =>
      if c.isDigit then pyDigitsAux rest (acc * 10 + (c.toNat - 48)) else none

/-- Nonempty digit sequence (with the Python underscore grouping). -/
def pyDigits : List Char → Option Nat
  | [] => none
  | c :: rest => if c.isDigit then pyDigitsAux rest (c.toNat - 48) else none

/-- Python `int(s)`: strip surrounding whitespace, optional sign, nonempty
digit sequence; `none` models the `ValueError` raised on anything else. -/
def pyInt (s : String) : Option Int :=
  let cs := ((s.toList.dropWhile isPySpace).reverse.dropWhile isPySpace).reverse
  match cs with
  | '+' :: rest => (pyDigits rest).map (fun n => (n : Int))
  | '-' :: rest => (pyDigits rest).map (fun n => -(n : Int))
  | rest => (pyDigits rest).map (fun n => (n : Int))

/-- A Pexels photo as used by the script: description, photographer and the
`src.large2x` URL. -/
structure Photo where
  alt : String
  photographer : String
  large2x : String
  deriving Repr, DecidableEq

/-- Result of one interactive selection: a chosen 0-based candidate index,
or a user skip. -/
inductive Selection where
  | chosen (idx : Nat)
  | skipped
  deriving Repr, DecidableEq

/-- The interactive prompt loop (lines 189-201) run against a queue of stdin
lines.  Each line is stripped and lowercased; `"s"` skips, an in-range
1-based integer selects, anything else re-prompts on the next line.  `none`
models the loop never resolving (stdin exhausted: the Python `input()` builtin would
raise `EOFError`).  Returns the unconsumed input lines alongside the
selection. -/
def selection_loop (photos : List Photo) : List String → Option (Selection × List String)
  | [] => none
  | line :: rest =>
    let choice := pyLower (pyStrip line)
    if choice = "s" then
      some (Selection.skipped, rest)
    else
      match pyInt choice with
      | some i =>
          let idx := i - 1
          if 0 ≤ idx ∧ idx < (photos.length : Int) then
            some (Selection.chosen idx.toNat, rest)
          else
            selection_loop photos rest
      | none => selection_loop photos rest

/-- What the network does when `search_pexels` issues its HTTP GET:
the request raises (connection error / timeout), returns a non-200 status,
or returns 200 with a JSON body whose `photos` field is the given list. -/
inductive SearchOutcome where
  | transportError (msg : String)
  | httpError (status : Int) (text : String)
  | success (photos : List Photo)
  deriving Repr, DecidableEq

/-- Function `search_pexels` (lines 102-117).  The `requests.get` call is not inside
any `try`, so a transport exception propagates to the caller; a non-200
status is logged and returns `None`; a 200 response returns the parsed
body. -/
def search_pexels (outcome : SearchOutcome) : Except PyError (Option (List Photo)) :=
  match outcome with
  | SearchOutcome.transportError msg => Except.error (PyError.transport msg)
  | SearchOutcome.httpError _ _ => Except.ok none
  | SearchOutcome.success photos => Except.ok (some photos)

/-- What the network does when `download_image` fetches the photo URL:
any exception (transport, bad status via `raise_for_status`, undecodable
image in `Image.open`), or a decoded image. -/
inductive DownloadOutcome where
  | failure (msg : String)
  | success (image : PILImage)

/-- Function `download_image` (lines 120-128): the whole body is inside
`try/except Exception`, so every failure is caught and becomes `None`. -/
def download_image (outcome : DownloadOutcome) : Option PILImage :=
  match outcome with
  | DownloadOutcome.failure _ => none
  | DownloadOutcome.success image => some image

/-- The environment one catalog entry runs against: the search response, the
download response, and whether the filesystem write in `save_image`
succeeds. -/
structure EntryWorld where
  search : SearchOutcome
  download : DownloadOutcome
  writeOk : Bool

/-- Function `download_and_process` (lines 164-226) for one entry.  Note the Python
function takes NO size parameter: it calls `process_image(image)`, so the
resize always uses the `TARGET_SIZE` default.  Returns the written artifact
(`some` exactly when the Python function returns `True`) together with the
stdin lines not yet consumed; `Except.error` models an exception escaping
the function. -/
def download_and_process (world : EntryWorld) (interactive : Bool)
    (inputs : List String) : Except PyError (Option PILImage × List String) :=
  match search_pexels world.search with
  | Except.error e => Except.error e
  | Except.ok none => Except.ok (none, inputs)
  | Except.ok (some photos) =>
    if photos.isEmpty then Except.ok (none, inputs)
    else
      match (if interactive then selection_loop photos inputs
             else some (Selection.chosen 0, inputs)) with
      | none => Except.error PyError.eof
      | some (Selection.skipped, rest) => Except.ok (none, rest)
      | some (Selection.chosen _, rest) =>
        match download_image world.download with
        | none => Except.ok (none, rest)
        | some image =>
          let processed := process_image image
          match save_image processed with
          | Except.error e => Except.error e
          | Except.ok saved =>
            if world.writeOk then Except.ok (some saved, rest)
            else Except.error (PyError.oserror "write failed")

/-- One row of `BEACH_HOUSE_IMAGES` / `HOUSEHOLD_ITEMS`:
`(output_filename, search_query, orientation)`. -/
structure EntrySpec where
  filename : String
  query : String
  orientation : String
  deriving Repr, DecidableEq

/-- Per-entry environment: whether `{output_dir}/{filename}.jpg` already
exists, and the network/filesystem world of the entry. -/
structure EntryEnv where
  fileExists : Bool
  world : EntryWorld

/-- The parsed CLI arguments used by the processing loop. -/
structure Args where
  auto : Bool
  size : Int
  skip_existing : Bool

/-- Mutable state of the loop in `main` (lines 288-306): the two counters, the
artifacts written so far (filename and image, in order), and the remaining
stdin lines. -/
structure RunState where
  success_count : Nat
  skipped_count : Nat
  artifacts : List (String × PILImage)
  inputs : List String

/-- The entry loop of `main` (lines 288-306).  An exception escaping
`download_and_process` aborts the whole loop (there is no `try` around the
call); the state reached so far is returned with the error. -/
def process_entries (args : Args) :
    List (EntrySpec × EntryEnv) → RunState → Except (PyError × RunState) RunState
  | [], st => Except.ok st
  | (entry, env) :: rest, st =>
    if args.skip_existing && env.fileExists then
      process_entries args rest { st with skipped_count := st.skipped_count + 1 }
    else
      match download_and_process env.world (!args.auto) st.inputs with
      | Except.error e => Except.error (e, st)
      | Except.ok (some artifact, inputs') =>
          process_entries args rest
            { st with
              success_count := st.success_count + 1
              artifacts := st.artifacts ++ [(entry.filename ++ ".jpg", artifact)]
              inputs := inputs' }
      | Except.ok (none, inputs') =>
          process_entries args rest { st with inputs := inputs' }

/-- Run the loop of `main` from the initial state (counters zero, nothing
written) on a queue of stdin lines. -/
def run_main (args : Args) (entries : List (EntrySpec × EntryEnv))
    (inputs : List String) : Except (PyError × RunState) RunState :=
  process_entries args entries
    { success_count := 0, skipped_count := 0, artifacts := [], inputs := inputs }

/-- Names and pixel dimensions of the artifacts a run wrote (empty when the
run aborted with an exception before writing anything). -/
def artifactDims (result : Except (PyError × RunState) RunState) :
    List (String × Int × Int) :=
  match result with
  | Except.error (_, st) => st.artifacts.map (fun a => (a.1, a.2.width, a.2.height))
  | Except.ok st => st.artifacts.map (fun a => (a.1, a.2.width, a.2.height))

/-- The summary printed at lines 308-312: `Downloaded: success/total` and the
skipped counter (shown only when positive, and labelled "existing"). -/
def run_summary (st : RunState) (total : Nat) : Nat × Nat × Nat :=
  (st.success_count, total, st.skipped_count)

/-! ## Test fixtures -/

/-- A concrete 4:3 landscape test image. -/
def testImage : PILImage :=
  { width := 4000, height := 3000, mode := "RGB", px := fun x y => x + 2 * y }

/-- A concrete square test image. -/
def testSquare : PILImage :=
  { width := 100, height := 100, mode := "RGB", px := fun x y => x * y }

/-- A concrete test photo. -/
def testPhoto : Photo :=
  { alt := "A laptop", photographer := "Ada", large2x := "https://x/1.jpg" }

/-! ## Helper lemmas -/

attribute [ext] PILImage

theorem crop_to_square_eq (image : PILImage) :
    crop_to_square image =
      image.crop ((image.width - min image.width image.height).fdiv 2,
                  (image.height - min image.width image.height).fdiv 2,
                  (image.width - min image.width image.height).fdiv 2
                    + min image.width image.height,
                  (image.height - min image.width image.height).fdiv 2
                    + min image.width image.height) := rfl

theorem fdiv_two_nonneg {a : Int} (h : 0 ≤ a) : 0 ≤ a.fdiv 2 := by
  rw [Int.fdiv_eq_ediv _ (by omega)]
  omega

theorem fdiv_two_le {a : Int} (h : 0 ≤ a) : a.fdiv 2 ≤ a := by
  rw [Int.fdiv_eq_ediv _ (by omega)]
  omega

/-! ## C3, C4, C8, C9: the crop / resize pipeline -/

/-- C3: for every input bitmap with positive width and height and every
positive target size `t`, `process_image` returns an image whose width and
height both equal exactly `t`, regardless of the input aspect ratio. -/
theorem process_image_dims (image : PILImage) (t : Int)
    (hw : 0 < image.width) (hh : 0 < image.height) (ht : 0 < t) :
    (process_image image t).width = t ∧ (process_image image t).height = t :=
  ⟨rfl, rfl⟩

/-- Witness for `process_image_dims` at the concrete 4000x3000 test image
and target size 512. -/
theorem process_image_dims_witness :
    0 < testImage.width ∧ 0 < testImage.height ∧ (0 : Int) < 512 ∧
      (process_image testImage 512).width = 512 ∧
      (process_image testImage 512).height = 512 :=
  ⟨by decide, by decide, by decide,
   (process_image_dims testImage 512 (by decide) (by decide) (by decide)).1,
   (process_image_dims testImage 512 (by decide) (by decide) (by decide)).2⟩

/-- C4: `crop_to_square` computes `side = min(w, h)`,
`left = (w - side) // 2` and `top = (h - side) // 2` with floor division and
crops exactly the region `[left, top, left + side, top + side]`: the result
has dimensions `side × side` and its pixel `(x, y)` is the source pixel
`(x + left, y + top)`. -/
theorem crop_to_square_center_box (image : PILImage) :
    crop_to_square image =
      image.crop ((image.width - min image.width image.height).fdiv 2,
                  (image.height - min image.width image.height).fdiv 2,
                  (image.width - min image.width image.height).fdiv 2
                    + min image.width image.height,
                  (image.height - min image.width image.height).fdiv 2
                    + min image.width image.height) ∧
    (crop_to_square image).width = min image.width image.height ∧
    (crop_to_square image).height = min image.width image.height ∧
    ∀ x y, (crop_to_square image).px x y =
      image.px (x + (image.width - min image.width image.height).fdiv 2)
               (y + (image.height - min image.width image.height).fdiv 2) := by
  refine ⟨rfl, ?_, ?_, fun x y => rfl⟩
  · show (image.width - min image.width image.height).fdiv 2
        + min image.width image.height
        - (image.width - min image.width image.height).fdiv 2
      = min image.width image.height
    omega
  · show (image.height - min image.width image.height).fdiv 2
        + min image.width image.height
        - (image.height - min image.width image.height).fdiv 2
      = min image.width image.height
    omega

/-- C8: for a square input the crop step is the identity: the crop box is
`(0, 0, width, height)`, the cropped image is the input itself (same
dimensions, mode and pixels, no pixel shift), and normalization reduces to
the resize step alone. -/
theorem square_crop_identity (image : PILImage) (t : Int)
    (h : image.width = image.height) :
    crop_to_square image = image.crop (0, 0, image.width, image.height) ∧
    crop_to_square image = image ∧
    process_image image t = image.resize t t := by
  have hmin : min image.width image.height = image.width := by omega
  have hid : crop_to_square image = image := by
    ext <;> simp [crop_to_square, PILImage.crop, hmin, h]
  refine ⟨?_, hid, ?_⟩
  · ext <;> simp [crop_to_square, PILImage.crop, hmin, h]
  · show (crop_to_square image).resize t t = image.resize t t
    rw [hid]

/-- Witness for `square_crop_identity` at the concrete 100x100 test image
and target size 1920. -/
theorem square_crop_identity_witness :
    testSquare.width = testSquare.height ∧
      crop_to_square testSquare = testSquare ∧
      process_image testSquare 1920 = testSquare.resize 1920 1920 :=
  ⟨rfl, (square_crop_identity testSquare 1920 rfl).2.1,
   (square_crop_identity testSquare 1920 rfl).2.2⟩

/-- C9: for every image with positive width and height, the crop box
computed by `crop_to_square` lies entirely within the image bounds. -/
theorem crop_box_in_bounds (image : PILImage)
    (hw : 0 < image.width) (hh : 0 < image.height) :
    0 ≤ (image.width - min image.width image.height).fdiv 2 ∧
    0 ≤ (image.height - min image.width image.height).fdiv 2 ∧
    (image.width - min image.width image.height).fdiv 2
      + min image.width image.height ≤ image.width ∧
    (image.height - min image.width image.height).fdiv 2
      + min image.width image.height ≤ image.height := by
  have h1 : 0 ≤ image.width - min image.width image.height := by omega
  have h2 : 0 ≤ image.height - min image.width image.height := by omega
  have h3 := fdiv_two_le h1
  have h4 := fdiv_two_le h2
  exact ⟨fdiv_two_nonneg h1, fdiv_two_nonneg h2, by omega, by omega⟩

/-- Witness for `crop_box_in_bounds` at the concrete 4000x3000 test
image. -/
theorem crop_box_in_bounds_witness :
    0 < testImage.width ∧ 0 < testImage.height ∧
      0 ≤ (testImage.width - min testImage.width testImage.height).fdiv 2 ∧
      (testImage.width - min testImage.width testImage.height).fdiv 2
        + min testImage.width testImage.height ≤ testImage.width :=
  ⟨by decide, by decide,
   (crop_box_in_bounds testImage (by decide) (by decide)).1,
   (crop_box_in_bounds testImage (by decide) (by decide)).2.2.1⟩

/-! ## Selection loop lemmas -/

/-- A stdin line on which the prompt loop resolves: the skip token or an
in-range 1-based index. -/
def validLine (n : Nat) (line : String) : Bool :=
  let choice := pyLower (pyStrip line)
  choice = "s" ||
    (match pyInt choice with
     | some i => decide (1 ≤ i ∧ i ≤ (n : Int))
     | none => false)

theorem selection_loop_cons_skip (photos : List Photo) (line : String)
    (rest : List String) (h : pyLower (pyStrip line) = "s") :
    selection_loop photos (line :: rest) = some (Selection.skipped, rest) := by
  simp [selection_loop, h]

theorem selection_loop_cons_chosen (photos : List Photo) (line : String)
    (rest : List String) (i : Int)
    (h : pyInt (pyLower (pyStrip line)) = some i)
    (h1 : 1 ≤ i) (h2 : i ≤ photos.length) :
    selection_loop photos (line :: rest) =
      some (Selection.chosen (i - 1).toNat, rest) := by
  have hs : pyLower (pyStrip line) ≠ "s" := by
    intro hc
    rw [hc] at h
    exact Option.noConfusion h
  simp only [selection_loop, if_neg hs, h]
  rw [if_pos (by omega)]

theorem selection_loop_cons_invalid (photos : List Photo) (line : String)
    (rest : List String)
    (hs : pyLower (pyStrip line) ≠ "s")
    (hi : ∀ i, pyInt (pyLower (pyStrip line)) = some i →
            i < 1 ∨ (photos.length : Int) < i) :
    selection_loop photos (line :: rest) = selection_loop photos rest := by
  simp only [selection_loop, if_neg hs]
  cases h : pyInt (pyLower (pyStrip line)) with
  | none => rfl
  | some i =>
      have hrange := hi i h
      show (if 0 ≤ i - 1 ∧ i - 1 < (photos.length : Int) then
              some (Selection.chosen (i - 1).toNat, rest)
            else selection_loop photos rest) = selection_loop photos rest
      rw [if_neg (by omega)]

theorem selection_loop_resolves (photos : List Photo) :
    ∀ inputs : List String, (∃ l ∈ inputs, validLine photos.length l = true) →
      (selection_loop photos inputs).isSome = true := by
  intro inputs
  induction inputs with
  | nil => rintro ⟨l, hl, -⟩; exact absurd hl (List.not_mem_nil l)
  | cons line rest ih =>
      rintro ⟨l, hl, hv⟩
      by_cases hs : pyLower (pyStrip line) = "s"
      · rw [selection_loop_cons_skip photos line rest hs]; rfl
      · cases h : pyInt (pyLower (pyStrip line)) with
        | some i =>
            by_cases hrange : 1 ≤ i ∧ i ≤ (photos.length : Int)
            · rw [selection_loop_cons_chosen photos line rest i h hrange.1 hrange.2]
              rfl
            · rw [selection_loop_cons_invalid photos line rest hs
                    (fun j hj => by rw [h] at hj; cases hj; omega)]
              rcases List.mem_cons.mp hl with heq | hmem
              · subst heq
                exfalso
                simp only [validLine, hs, h] at hv
                simp at hv
                omega
              · exact ih ⟨l, hmem, hv⟩
        | none =>
            rw [selection_loop_cons_invalid photos line rest hs
                  (fun j hj => by rw [h] at hj; cases hj)]
            rcases List.mem_cons.mp hl with heq | hmem
            · subst heq
              exfalso
              simp only [validLine, hs, h] at hv
              simp at hv
            · exact ih ⟨l, hmem, hv⟩

/-! ## C6, C10: the interactive selection contract -/

/-- C6: for every candidate list, a line whose normalized form is the skip
token resolves to a skip; a line parsing to a 1-based index in
`[1, length]` resolves to the candidate at that index; every other line is
rejected and the loop moves on to the next line; and whenever some line of
the input queue is valid, the invocation resolves to exactly one
selection. -/
theorem selection_loop_contract (photos : List Photo) (line : String)
    (rest : List String) :
    (pyLower (pyStrip line) = "s" →
       selection_loop photos (line :: rest) = some (Selection.skipped, rest)) ∧
    (∀ i : Int, pyInt (pyLower (pyStrip line)) = some i →
       1 ≤ i → i ≤ photos.length →
       selection_loop photos (line :: rest) =
         some (Selection.chosen (i - 1).toNat, rest)) ∧
    (pyLower (pyStrip line) ≠ "s" →
       (∀ i, pyInt (pyLower (pyStrip line)) = some i →
          i < 1 ∨ (photos.length : Int) < i) →
       selection_loop photos (line :: rest) = selection_loop photos rest) ∧
    (∀ inputs : List String, (∃ l ∈ inputs, validLine photos.length l = true) →
       (selection_loop photos inputs).isSome = true) :=
  ⟨selection_loop_cons_skip photos line rest,
   fun i h h1 h2 => selection_loop_cons_chosen photos line rest i h h1 h2,
   selection_loop_cons_invalid photos line rest,
   selection_loop_resolves photos⟩

/-- Witness for `selection_loop_contract`: with three candidates, the line
"s" skips, the line "2" selects the second candidate, the line "x" is
rejected and re-prompted, and a queue containing "2" resolves. -/
theorem selection_loop_contract_witness :
    selection_loop [testPhoto, testPhoto, testPhoto] ["s"] =
      some (Selection.skipped, []) ∧
    selection_loop [testPhoto, testPhoto, testPhoto] ["2"] =
      some (Selection.chosen 1, []) ∧
    selection_loop [testPhoto, testPhoto, testPhoto] ["x", "2"] =
      selection_loop [testPhoto, testPhoto, testPhoto] ["2"] ∧
    (selection_loop [testPhoto, testPhoto, testPhoto] ["x", "2"]).isSome = true := by
  refine ⟨(selection_loop_contract [testPhoto, testPhoto, testPhoto] "s" []).1 rfl,
          ?_, ?_, ?_⟩
  · have h := (selection_loop_contract [testPhoto, testPhoto, testPhoto] "2" []).2.1
      2 (by decide) (by decide) (by decide)
    exact h
  · exact (selection_loop_contract [testPhoto, testPhoto, testPhoto] "x" ["2"]).2.2.1
      (by decide)
      (fun i hi => by
        rw [show pyInt (pyLower (pyStrip "x")) = none from rfl] at hi
        exact Option.noConfusion hi)
  · exact (selection_loop_contract [testPhoto, testPhoto, testPhoto] "x" ["2"]).2.2.2
      ["x", "2"] ⟨"2", by decide, by decide⟩

/-- C10: the skip token is recognized after whitespace stripping and
lowercasing, so any line normalizing to "s" skips, and the same
normalization is applied to index input before parsing. -/
theorem skip_token_normalized (photos : List Photo) (line : String)
    (rest : List String) :
    (pyLower (pyStrip line) = "s" →
       selection_loop photos (line :: rest) = some (Selection.skipped, rest)) ∧
    (∀ i : Int, pyInt (pyLower (pyStrip line)) = some i →
       1 ≤ i → i ≤ photos.length →
       selection_loop photos (line :: rest) =
         some (Selection.chosen (i - 1).toNat, rest)) :=
  ⟨selection_loop_cons_skip photos line rest,
   fun i h h1 h2 => selection_loop_cons_chosen photos line rest i h h1 h2⟩

/-- Witness for `skip_token_normalized`: the lines " S " and "\t2 "
normalize to "s" and to the index 2 respectively. -/
theorem skip_token_normalized_witness :
    selection_loop [testPhoto, testPhoto] [" S "] =
      some (Selection.skipped, []) ∧
    selection_loop [testPhoto, testPhoto] ["\t2 "] =
      some (Selection.chosen 1, []) := by
  constructor
  · exact (skip_token_normalized [testPhoto, testPhoto] " S " []).1 (by decide)
  · have h := (skip_token_normalized [testPhoto, testPhoto] "\t2 " []).2
      2 (by decide) (by decide) (by decide)
    exact h

/-! ## C7: color-mode flattening before the JPEG encode -/

/-- A concrete image in the luminance-plus-alpha mode "LA". -/
def laImage : PILImage :=
  { width := 1920, height := 1920, mode := "LA", px := fun _ _ => 0 }

/-- A concrete image in mode "RGBA". -/
def rgbaImage : PILImage :=
  { width := 1920, height := 1920, mode := "RGBA", px := fun _ _ => 0 }

/-- C7 counterexample: mode "LA" carries an alpha channel, yet `save_image`
does not flatten it — the save step fails with an `OSError` instead of
producing an opaque image, refuting the claim for "every such mode". -/
theorem save_image_la_mode_fails :
    hasAlphaOrPalette "LA" = true ∧
    save_image laImage =
      Except.error (PyError.oserror "cannot write mode LA as JPEG") :=
  ⟨rfl, rfl⟩

/-- C7 amended: only the two modes "RGBA" and "P" are flattened to an
opaque "RGB" image before encoding (and the save then succeeds); any other
alpha or palette mode is passed through unconverted and the save step fails
with an `OSError`. -/
theorem save_image_flattens_rgba_p_only (image : PILImage) :
    (image.mode = "RGBA" ∨ image.mode = "P" →
       save_image image = Except.ok (image.convert "RGB") ∧
       hasAlphaOrPalette (image.convert "RGB").mode = false) ∧
    (hasAlphaOrPalette image.mode = true →
       image.mode ≠ "RGBA" → image.mode ≠ "P" →
       save_image image =
         Except.error (PyError.oserror
           ("cannot write mode " ++ image.mode ++ " as JPEG"))) := by
  obtain ⟨w, ht, m, p⟩ := image
  constructor
  · intro h
    refine ⟨?_, rfl⟩
    simp only at h
    rcases h with h | h <;> subst h <;> rfl
  · intro halpha hra hp
    simp only at halpha hra hp
    have hmode : m = "LA" ∨ m = "PA" ∨ m = "RGBa" ∨ m = "La" := by
      simp [hasAlphaOrPalette, PIL_ALPHA_MODES, PIL_PALETTE_MODES] at halpha
      tauto
    rcases hmode with h | h | h | h <;> subst h <;> rfl

/-- Witness for `save_image_flattens_rgba_p_only`: the RGBA test image is
flattened and saved; the LA test image fails to save. -/
theorem save_image_flattens_rgba_p_only_witness :
    (save_image rgbaImage = Except.ok (rgbaImage.convert "RGB") ∧
       hasAlphaOrPalette (rgbaImage.convert "RGB").mode = false) ∧
    save_image laImage =
      Except.error (PyError.oserror "cannot write mode LA as JPEG") :=
  ⟨(save_image_flattens_rgba_p_only rgbaImage).1 (Or.inl rfl),
   (save_image_flattens_rgba_p_only laImage).2 rfl
     (by decide) (by decide)⟩

/-! ## Batch fixtures and step lemmas -/

/-- The "laptop" entry of `HOUSEHOLD_ITEMS`. -/
def entryLaptop : EntrySpec :=
  { filename := "laptop", query := "laptop computer desk", orientation := "landscape" }

/-- The "smartphone" entry of `HOUSEHOLD_ITEMS`. -/
def entryPhone : EntrySpec :=
  { filename := "smartphone", query := "smartphone mobile phone", orientation := "portrait" }

/-- A world where everything succeeds. -/
def goodWorld : EntryWorld :=
  { search := SearchOutcome.success [testPhoto],
    download := DownloadOutcome.success testImage, writeOk := true }

/-- An entry whose output file does not exist yet and whose world
succeeds. -/
def goodEnv : EntryEnv := { fileExists := false, world := goodWorld }

/-- An entry whose search request raises a transport exception. -/
def transportEnv : EntryEnv :=
  { fileExists := false,
    world := { search := SearchOutcome.transportError "connection timed out",
               download := DownloadOutcome.success testImage, writeOk := true } }

/-- An entry whose search request comes back with a non-200 status. -/
def httpEnv : EntryEnv :=
  { fileExists := false,
    world := { search := SearchOutcome.httpError 429 "Too Many Requests",
               download := DownloadOutcome.success testImage, writeOk := true } }

/-- An entry whose download step fails (caught inside `download_image`). -/
def dlFailEnv : EntryEnv :=
  { fileExists := false,
    world := { search := SearchOutcome.success [testPhoto],
               download := DownloadOutcome.failure "connection reset", writeOk := true } }

/-- An entry whose output file already exists. -/
def existsEnv : EntryEnv := { fileExists := true, world := goodWorld }

/-- The initial loop state with no stdin lines queued. -/
def st0 : RunState :=
  { success_count := 0, skipped_count := 0, artifacts := [], inputs := [] }

/-- The initial loop state with a single "s" stdin line queued. -/
def skipState : RunState :=
  { success_count := 0, skipped_count := 0, artifacts := [], inputs := ["s"] }

theorem process_entries_cons (args : Args) (e : EntrySpec) (env : EntryEnv)
    (rest : List (EntrySpec × EntryEnv)) (st : RunState) :
    process_entries args ((e, env) :: rest) st =
      if args.skip_existing && env.fileExists then
        process_entries args rest { st with skipped_count := st.skipped_count + 1 }
      else
        match download_and_process env.world (!args.auto) st.inputs with
        | Except.error err => Except.error (err, st)
        | Except.ok (some artifact, inputs2) =>
            process_entries args rest
              { st with
                success_count := st.success_count + 1
                artifacts := st.artifacts ++ [(e.filename ++ ".jpg", artifact)]
                inputs := inputs2 }
        | Except.ok (none, inputs2) =>
            process_entries args rest { st with inputs := inputs2 } := rfl

theorem download_and_process_http_none (world : EntryWorld) (interactive : Bool)
    (inputs : List String) (status : Int) (text : String)
    (h : world.search = SearchOutcome.httpError status text) :
    download_and_process world interactive inputs = Except.ok (none, inputs) := by
  simp [download_and_process, search_pexels, h]

theorem download_and_process_dl_failure (world : EntryWorld)
    (inputs : List String) (photos : List Photo) (msg : String)
    (hs : world.search = SearchOutcome.success photos) (hne : photos ≠ [])
    (hd : world.download = DownloadOutcome.failure msg) :
    download_and_process world false inputs = Except.ok (none, inputs) := by
  cases photos with
  | nil => exact absurd rfl hne
  | cons a as => simp [download_and_process, search_pexels, hs, hd, download_image]

theorem download_and_process_user_skip (world : EntryWorld)
    (inputs remaining : List String) (photos : List Photo)
    (hs : world.search = SearchOutcome.success photos) (hne : photos ≠ [])
    (hsel : selection_loop photos inputs = some (Selection.skipped, remaining)) :
    download_and_process world true inputs = Except.ok (none, remaining) := by
  cases photos with
  | nil => exact absurd rfl hne
  | cons a as => simp [download_and_process, search_pexels, hs, hsel]

/-! ## C1: the --size flag versus the size actually used -/

/-- C1: the `--size` value never reaches the normalization step.
Changing the `size` field of the parsed arguments changes nothing about the
run (the loop never reads it, because `download_and_process` calls
`process_image` without a size argument), and a run invoked with
`--size 512` still writes a 1920x1920 artifact, 1920 being the hard-coded
`TARGET_SIZE` default. -/
theorem size_flag_ignored :
    (∀ (auto skip : Bool) (s s' : Int) (entries : List (EntrySpec × EntryEnv))
       (st : RunState),
       process_entries { auto := auto, size := s, skip_existing := skip } entries st =
         process_entries { auto := auto, size := s', skip_existing := skip } entries st) ∧
    artifactDims (run_main { auto := true, size := 512, skip_existing := false }
        [(entryLaptop, goodEnv)] []) = [("laptop.jpg", 1920, 1920)] ∧
    TARGET_SIZE = 1920 ∧ (512 : Int) ≠ 1920 := by
  refine ⟨?_, rfl, rfl, by decide⟩
  intro auto skip s s' entries
  induction entries with
  | nil => intro st; rfl
  | cons pe rest ih =>
      intro st
      obtain ⟨e, env⟩ := pe
      rw [process_entries_cons, process_entries_cons]
      simp only
      split
      · exact ih _
      · cases download_and_process env.world (!auto) st.inputs with
        | error err => rfl
        | ok pr =>
            obtain ⟨art, inputs2⟩ := pr
            cases art with
            | none => exact ih _
            | some a => exact ih _

/-! ## C2: per-item failure containment -/

/-- C2 counterexample: a transport failure during the search of the first
entry escapes `download_and_process` and aborts the whole run before any
later entry is processed, while the second entry on its own would have
produced an artifact. -/
theorem transport_error_halts_batch :
    run_main { auto := true, size := 1920, skip_existing := false }
        [(entryLaptop, transportEnv), (entryPhone, goodEnv)] [] =
      Except.error (PyError.transport "connection timed out", st0) ∧
    artifactDims (run_main { auto := true, size := 1920, skip_existing := false }
        [(entryPhone, goodEnv)] []) = [("smartphone.jpg", 1920, 1920)] :=
  ⟨rfl, rfl⟩

/-- C2 amended: failures surfaced as values — a non-200 search response or
a download failure (the only stage wrapped in try/except) — are contained:
the entry is dropped, no counter but the total changes, and the remaining
entries are processed from the same state.  (Transport exceptions during
search, by contrast, abort the run, as `transport_error_halts_batch`
shows.) -/
theorem caught_failures_continue (args : Args) (e : EntrySpec) (env : EntryEnv)
    (rest : List (EntrySpec × EntryEnv)) (st : RunState)
    (hskip : args.skip_existing = false) :
    (∀ (status : Int) (text : String),
       env.world.search = SearchOutcome.httpError status text →
       process_entries args ((e, env) :: rest) st = process_entries args rest st) ∧
    (∀ (photos : List Photo) (msg : String),
       env.world.search = SearchOutcome.success photos → photos ≠ [] →
       args.auto = true → env.world.download = DownloadOutcome.failure msg →
       process_entries args ((e, env) :: rest) st = process_entries args rest st) := by
  constructor
  · intro status text h
    rw [process_entries_cons, hskip,
        download_and_process_http_none env.world (!args.auto) st.inputs status text h]
    rfl
  · intro photos msg hs hne hauto hd
    rw [process_entries_cons, hskip, hauto, Bool.not_true,
        download_and_process_dl_failure env.world st.inputs photos msg hs hne hd]
    rfl

/-- Witness for `caught_failures_continue`: an HTTP 429 on the first entry
and a download failure on a single entry both continue the loop
unchanged. -/
theorem caught_failures_continue_witness :
    process_entries { auto := true, size := 1920, skip_existing := false }
        [(entryLaptop, httpEnv), (entryPhone, goodEnv)] st0 =
      process_entries { auto := true, size := 1920, skip_existing := false }
        [(entryPhone, goodEnv)] st0 ∧
    process_entries { auto := true, size := 1920, skip_existing := false }
        [(entryLaptop, dlFailEnv)] st0 =
      process_entries { auto := true, size := 1920, skip_existing := false } [] st0 :=
  ⟨(caught_failures_continue _ entryLaptop httpEnv _ st0 rfl).1
      429 "Too Many Requests" rfl,
   (caught_failures_continue _ entryLaptop dlFailEnv _ st0 rfl).2
      [testPhoto] "connection reset" rfl (List.cons_ne_nil _ _) rfl rfl⟩

/-! ## C5: what the skipped counter counts -/

/-- C5 counterexample: in interactive mode a user skip of the only entry
produces no artifact but also increments no counter — the final state
reports zero skipped, and the summary for one entry is
`(downloaded, total, skipped) = (0, 1, 0)`, so no skipped counter
reflecting the user skip is reported. -/
theorem user_skip_not_counted :
    run_main { auto := false, size := 1920, skip_existing := false }
        [(entryLaptop, goodEnv)] ["s"] = Except.ok st0 ∧
    run_summary st0 1 = (0, 1, 0) :=
  ⟨rfl, rfl⟩

/-- C5 amended: a user skip produces no artifact for the entry, leaves the
counters untouched and continues with the remaining entries (consuming the
stdin lines used); the skipped counter reported by the summary is
incremented only on the skip-existing path. -/
theorem user_skip_no_artifact (args : Args) (e : EntrySpec) (env : EntryEnv)
    (rest : List (EntrySpec × EntryEnv)) (st : RunState)
    (photos : List Photo) (remaining : List String) :
    (args.skip_existing = false → args.auto = false →
       env.world.search = SearchOutcome.success photos → photos ≠ [] →
       selection_loop photos st.inputs = some (Selection.skipped, remaining) →
       process_entries args ((e, env) :: rest) st =
         process_entries args rest { st with inputs := remaining }) ∧
    (args.skip_existing = true → env.fileExists = true →
       process_entries args ((e, env) :: rest) st =
         process_entries args rest { st with skipped_count := st.skipped_count + 1 }) := by
  constructor
  · intro hskip hauto hs hne hsel
    rw [process_entries_cons, hskip, hauto, Bool.not_false,
        download_and_process_user_skip env.world st.inputs remaining photos hs hne hsel]
    rfl
  · intro hskip hex
    rw [process_entries_cons, hskip, hex]
    rfl

/-- Witness for `user_skip_no_artifact`: the user skipping the only entry
continues with nothing written and counters unchanged; a pre-existing file
under `--skip-existing` increments the skipped counter. -/
theorem user_skip_no_artifact_witness :
    process_entries { auto := false, size := 1920, skip_existing := false }
        [(entryLaptop, goodEnv)] skipState =
      process_entries { auto := false, size := 1920, skip_existing := false } []
        { skipState with inputs := [] } ∧
    process_entries { auto := false, size := 1920, skip_existing := true }
        [(entryLaptop, existsEnv)] st0 =
      process_entries { auto := false, size := 1920, skip_existing := true } []
        { st0 with skipped_count := st0.skipped_count + 1 } :=
  ⟨(user_skip_no_artifact _ entryLaptop goodEnv [] skipState [testPhoto] []).1
      rfl rfl rfl (List.cons_ne_nil _ _) rfl,
   (user_skip_no_artifact _ entryLaptop existsEnv [] st0 [testPhoto] []).2 rfl rfl⟩

end MovingBox
